import Mathlib

/-!
Shallow embedding of `MM_class_base.py` (class `MM_base`), the single source
file of the `mm_base` repository, together with proofs about its behaviour.

The code is a thin configuration layer over the OpenMM engine.  We embed the
control flow of `MM_base.__init__` and of the methods `set_trajectory_output`,
`set_periodic_residue`, `set_platform` and `generate_exclusions` as pure Lean
functions.  Engine-owned operations (file parsing, system building, the actual
simulation) are abstracted: their *results* (the force list produced by
`createSystem`, the force-field templates, the topology residues, the modeller
positions) are inputs of the model, and engine calls whose only relevant
effect is that they happen (`createRigidBodies`, the exclusion generators)
are recorded in the produced state rather than interpreted.

Python exceptions and `sys.exit` are modelled with `Except PyError`.
-/

set_option autoImplicit false

deriving instance DecidableEq for Except

namespace MMBaseModel

/-- Errors a run of the Python code can raise.  `systemExit` stands for
`sys.exit()` (process termination). -/
inductive PyError where
  | keyError (key : String)
  | attributeError (attr : String)
  | typeError
  | valueError
  | indexError
  | systemExit
  deriving DecidableEq, Repr

/-- A Python value as it can appear in the `**kwargs` dictionary of
`MM_base.__init__`.  Lists appearing there hold atom-type strings
(the `rigid_body` keyword), so list values carry strings. -/
inductive PyValue where
  | num (q : ℚ)
  | str (s : String)
  | bool (b : Bool)
  | list (l : List String)
  deriving DecidableEq, Repr

/-- Python truthiness of a `PyValue` (`bool(v)`): zero, the empty string and
the empty list are falsy. -/
def pyTruthy : PyValue → Bool
  | .num q => q != 0
  | .str s => s != ""
  | .bool b => b
  | .list l => !l.isEmpty

/-- Truncation of a rational toward zero: the value of Python `int()` on a
(non-integral) number.  `Int.div` is T-division, which truncates toward
zero exactly as Python `int()` does. -/
def pyTruncInt (q : ℚ) : ℤ := Int.tdiv q.num q.den

/-- Python `int(v)` for the kwargs values, as a rational.  Numeric strings
(`int("300")`) are not modelled: no code path under analysis feeds strings to
the integer-converted run parameters. -/
def pyIntQ : PyValue → Except PyError ℚ
  | .num q => .ok ((pyTruncInt q : ℤ) : ℚ)
  | .bool b => .ok (if b then 1 else 0)
  | .str _ => .error .valueError
  | .list _ => .error .typeError

/-- Python `float(v)` for the kwargs values.  Numeric strings are not
modelled, as for `pyIntQ`. -/
def pyFloatQ : PyValue → Except PyError ℚ
  | .num q => .ok q
  | .bool b => .ok (if b then 1 else 0)
  | .str _ => .error .valueError
  | .list _ => .error .typeError

/-- The engine units attached to the scalar run parameters
(`simtk.unit`). -/
inductive EngUnit where
  | kelvin
  | perPicosecond
  | picoseconds
  | nanometer
  | atmosphere
  deriving DecidableEq, Repr

/-- A dimensioned scalar, e.g. `300*kelvin` or `1/picosecond`. -/
structure Quantity where
  val : ℚ
  unit : EngUnit
  deriving DecidableEq, Repr

/-- The `**kwargs` dictionary: an association list with the keys unique,
looked up by first match. -/
abbrev Kwargs := List (String × PyValue)

/-- `key in kwargs` / `kwargs[key]`. -/
def lookupKw (kw : Kwargs) (key : String) : Option PyValue :=
  (kw.find? (fun kv => kv.1 == key)).map (·.2)

/-- The scalar run parameters gathered by lines 27-59 of
`MM_class_base.py` (defaults possibly overridden from kwargs). -/
structure Params where
  temperature : Quantity
  temperature_drude : Quantity
  friction : Quantity
  friction_drude : Quantity
  timestep : Quantity
  small_threshold : ℚ
  cutoff : Quantity
  nonbonded_method : PyValue
  npt_barostat : Bool
  pressure : Option Quantity
  rigid_body : Option PyValue
  deriving DecidableEq, Repr

/-- One keyword override: `self.x = conv(kwargs[k])*unit` when `k in kwargs`,
else the default. -/
def kwQuantity (kw : Kwargs) (key : String) (conv : PyValue → Except PyError ℚ)
    (u : EngUnit) (dflt : Quantity) : Except PyError Quantity :=
  match lookupKw kw key with
  | none => .ok dflt
  | some v =>
    match conv v with
    | .ok q => .ok ⟨q, u⟩
    | .error e => .error e

/-- The `npt_barostat` kwargs branch (lines 55-57): whenever the key
`npt_barostat` is present, `self.npt_barostat = bool(...)` and
`self.pressure = float(kwargs['pressure'])*atmosphere` — the latter raises
`KeyError` when `pressure` is absent from kwargs. -/
def nptFromKwargs (kw : Kwargs) : Except PyError (Bool × Option Quantity) :=
  match lookupKw kw "npt_barostat" with
  | none => .ok (false, none)
  | some v =>
    match lookupKw kw "pressure" with
    | none => .error (.keyError "pressure")
    | some pv =>
      match pyFloatQ pv with
      | .ok q => .ok (pyTruthy v, some ⟨q, .atmosphere⟩)
      | .error e => .error e

/-- Lines 27-59 of `MM_class_base.py`: defaults, then kwargs overrides in
source order. -/
def processKwargs (kw : Kwargs) : Except PyError Params :=
  match kwQuantity kw "temperature" pyIntQ .kelvin ⟨300, .kelvin⟩ with
  | .error e => .error e
  | .ok temperature =>
  match kwQuantity kw "temperature_drude" pyIntQ .kelvin ⟨1, .kelvin⟩ with
  | .error e => .error e
  | .ok temperature_drude =>
  match kwQuantity kw "friction" pyIntQ .perPicosecond ⟨1, .perPicosecond⟩ with
  | .error e => .error e
  | .ok friction =>
  match kwQuantity kw "friction_drude" pyIntQ .perPicosecond ⟨1, .perPicosecond⟩ with
  | .error e => .error e
  | .ok friction_drude =>
  match kwQuantity kw "timestep" pyFloatQ .picoseconds ⟨Rat.divInt 1 1000, .picoseconds⟩ with
  | .error e => .error e
  | .ok timestep =>
  match (match lookupKw kw "small_threshold" with
         | none => .ok (Rat.divInt 1 1000000)
         | some v => pyFloatQ v : Except PyError ℚ) with
  | .error e => .error e
  | .ok small_threshold =>
  match kwQuantity kw "cutoff" pyFloatQ .nanometer ⟨Rat.divInt 7 5, .nanometer⟩ with
  | .error e => .error e
  | .ok cutoff =>
  match nptFromKwargs kw with
  | .error e => .error e
  | .ok (npt_barostat, pressure) =>
    .ok { temperature, temperature_drude, friction, friction_drude, timestep,
          small_threshold, cutoff,
          nonbonded_method := (lookupKw kw "nonbonded_method").getD (.str "PME"),
          npt_barostat, pressure,
          rigid_body := lookupKw kw "rigid_body" }

/-- The type (class) of an OpenMM force object, as discriminated by the
`type(f) == ...` tests in the source. -/
inductive ForceKind where
  | nonbonded
  | customNonbonded
  | drude
  | customBond
  | harmonicBond
  | harmonicAngle
  | periodicTorsion
  | rbTorsion
  | other
  deriving DecidableEq, Repr

/-- The state of one force of the system that this code can observe or
mutate: its kind, its force group (`setForceGroup`) and its
periodic-boundary flag (`setUsesPeriodicBoundaryConditions`).  The nonbonded
method stored on `self.nbondedForce` is tracked separately in `MMBase`,
because no code under analysis ever reads it back through the system's force
list. -/
structure Force where
  kind : ForceKind
  forceGroup : ℕ := 0
  usesPBC : Bool := false
  deriving DecidableEq, Repr

/-- An atom of a force-field residue template (`forcefield._templates`):
carries a name and an atom type. -/
structure TemplateAtom where
  name : String
  type : String
  deriving DecidableEq, Repr

/-- A force-field residue template: its list of atoms, in order. -/
structure Template where
  atoms : List TemplateAtom
  deriving DecidableEq, Repr

/-- An atom of the modeller topology: a name and a global index. -/
structure TopAtom where
  name : String
  index : ℕ
  deriving DecidableEq, Repr

/-- A residue of the modeller topology: its `_atoms` list, in order. -/
structure Residue where
  atoms : List TopAtom
  deriving DecidableEq, Repr

/-- Positions of the modeller / context (coordinates are irrelevant to the
code under analysis, only identity matters). -/
abbrev Positions := List (ℚ × ℚ × ℚ)

/-- The engine-produced objects that `MM_base.__init__` inspects after the
loading phase (lines 62-78): the force-field templates (iterated in dict
insertion order), the topology residues, the forces of the system built by
`createSystem` (in force-index order) and the modeller positions.  File
parsing and system building are the engine's own and are abstracted as these
given results. -/
structure EngineInputs where
  templates : List Template
  residues : List Residue
  forces : List Force
  positions : Positions
  deriving DecidableEq, Repr

/-- OpenMM's `NonbondedForce.NoCutoff` enum value. -/
def nbNoCutoff : ℕ := 0

/-- OpenMM's `NonbondedForce.PME` enum value. -/
def nbPME : ℕ := 4

/-- Lines 96-104: dispatch of the long-range method on the configured
`nonbonded_method` value; any value other than the strings `'NoCutoff'` and
`'PME'` reaches `sys.exit()`. -/
def dispatchMethod (nm : PyValue) : Except PyError ℕ :=
  if nm = .str "NoCutoff" then .ok nbNoCutoff
  else if nm = .str "PME" then .ok nbPME
  else .error .systemExit

/-- The integrator constructed at lines 116-123, with the constructor
arguments in source order; for the Drude integrator the last component is
the `setMaxDrudeDistance` value. -/
inductive Integrator where
  | drudeLangevin (temperature friction temperature_drude friction_drude timestep : Quantity)
      (maxDrudeDistance : ℚ)
  | langevin (temperature friction timestep : Quantity)
  deriving DecidableEq, Repr

/-- Lines 129-133: walk every atom of every force-field template and collect
the names of the atoms whose type is in the `rigid_body` list, in iteration
order (nested loops appending to `rigid_body_atom_names`). -/
def collectRigidAtomNames (templates : List Template) (rb : List String) : List String :=
  templates.foldl
    (fun acc t =>
      t.atoms.foldl
        (fun acc2 a => if a.type ∈ rb then acc2 ++ [a.name] else acc2) acc)
    []

/-- Lines 136-143: for each residue of the modeller topology, in order,
collect the indices of its atoms whose name is among `names`; keep only the
non-empty per-residue lists. -/
def buildBodies (residues : List Residue) (names : List String) : List (List ℕ) :=
  residues.foldl
    (fun bodies res =>
      let body := res.atoms.foldl
        (fun b a => if a.name ∈ names then b ++ [a.index] else b) []
      if body ≠ [] then bodies ++ [body] else bodies)
    []

/-- Lines 126-144: when `rigid_body` was supplied, compute the per-residue
body index lists and pass them to the engine's `createRigidBodies`; the model
records the argument passed.  `atom.type in self.rigid_body` is list
membership (the code documents `rigid_body` as a list of atom types;
membership in a non-list value is outside the model and mapped to
`TypeError`). -/
def rigidStage (rb : Option PyValue) (e : EngineInputs) :
    Except PyError (Option (List (List ℕ))) :=
  match rb with
  | none => .ok none
  | some (.list l) => .ok (some (buildBodies e.residues (collectRigidAtomNames e.templates l)))
  | some _ => .error .typeError

/-- The attribute state of a fully constructed `MM_base` object, as far as
the code under analysis observes it.  `nbondedForceMethod` is the nonbonded
method stored on `self.nbondedForce` (an alias of a member of the system's
force list; nothing later reads the method back through the list, so it is
kept as a field).  `rigidBodiesCreated` records the `bodies` argument passed
to `createRigidBodies`, or `none` when no rigid bodies were requested. -/
structure MMBase where
  temperature : Quantity
  temperature_drude : Quantity
  friction : Quantity
  friction_drude : Quantity
  timestep : Quantity
  small_threshold : ℚ
  cutoff : Quantity
  nonbonded_method : PyValue
  npt_barostat : Bool
  pressure : Option Quantity
  rigid_body : Option PyValue
  forces : List Force
  nbondedForceMethod : ℕ
  polarization : Bool
  integrator : Integrator
  rigidBodiesCreated : Option (List (List ℕ))
  positions : Positions
  deriving DecidableEq, Repr

/-- Lines 80-144 of `MM_base.__init__`, after the run parameters have been
read and the engine objects built.  In source order:
line 80 takes the first `NonbondedForce` of the system (`IndexError` when
there is none); lines 81-83 replace `self.customNonbondedForce` by the force
object itself when one exists; lines 86-93 detect a `DrudeForce` and then
take the first `CustomBondForce` (`IndexError` when polarizable but none
exists); lines 96-104 dispatch the long-range method; lines 106-108
subscript `self.customNonbondedForce[0]`, a `TypeError` since it is no longer
a list (the subscript is evaluated before the `min(...)` argument); lines
110-114 add the barostat and then read the never-assigned attribute
`self.NPT_barostat_pressure` in the status print (`AttributeError`); lines
116-123 build the integrator; lines 126-144 build rigid bodies. -/
def initSystem (e : EngineInputs) (p : Params) : Except PyError MMBase :=
  match e.forces.find? (fun f => f.kind == .nonbonded) with
  | none => .error .indexError
  | some _ =>
    let hasCustom := e.forces.any (fun f => f.kind == .customNonbonded)
    let hasDrude := e.forces.any (fun f => f.kind == .drude)
    if hasDrude && !(e.forces.any (fun f => f.kind == .customBond)) then
      .error .indexError
    else
      match dispatchMethod p.nonbonded_method with
      | .error err => .error err
      | .ok m =>
        if hasCustom then .error .typeError
        else if p.npt_barostat then .error (.attributeError "NPT_barostat_pressure")
        else
          let integrator :=
            if hasDrude then
              Integrator.drudeLangevin p.temperature p.friction p.temperature_drude
                p.friction_drude p.timestep (Rat.divInt 1 50)
            else
              Integrator.langevin p.temperature p.friction p.timestep
          match rigidStage p.rigid_body e with
          | .error err => .error err
          | .ok bodies =>
            .ok { temperature := p.temperature
                  temperature_drude := p.temperature_drude
                  friction := p.friction
                  friction_drude := p.friction_drude
                  timestep := p.timestep
                  small_threshold := p.small_threshold
                  cutoff := p.cutoff
                  nonbonded_method := p.nonbonded_method
                  npt_barostat := p.npt_barostat
                  pressure := p.pressure
                  rigid_body := p.rigid_body
                  forces := e.forces
                  nbondedForceMethod := m
                  polarization := hasDrude
                  integrator := integrator
                  rigidBodiesCreated := bodies
                  positions := e.positions }

/-- `MM_base.__init__`: read the run parameters from kwargs (lines 27-59),
then inspect and configure the engine objects (lines 80-144). -/
def mm_base_init (e : EngineInputs) (kw : Kwargs) : Except PyError MMBase :=
  match processKwargs kw with
  | .error err => .error err
  | .ok p => initSystem e p

/-- A reporter attached to the simulation (`simmd.reporters`). -/
inductive Reporter where
  | dcd (filename : String) (write_frequency : ℕ) (append : Bool)
  | checkpoint (file : String) (write_frequency : ℕ)
  deriving DecidableEq, Repr

/-- The `Simulation` object (`self.simmd`) as far as this code observes it:
the platform it was built on, the CUDA properties dict when one was passed,
the positions currently set on its context, its reporters, and a counter of
`context.reinitialize()` calls. -/
structure Simulation where
  platform : String
  properties : Option (List (String × String))
  contextPositions : Option Positions
  reporters : List Reporter
  reinitCount : ℕ
  deriving DecidableEq, Repr

/-- `MM_base.set_platform` (lines 177-196): each of the four recognized
platform names builds the `Simulation` (with `{'Precision': 'mixed'}` for
CUDA only); any other name reaches `sys.exit(0)`.  After the dispatch the
context positions are set from the modeller positions. -/
def set_platform (st : MMBase) (platformname : String) : Except PyError Simulation :=
  match
    (if platformname = "Reference" then
      .ok { platform := "Reference", properties := none, contextPositions := none,
            reporters := [], reinitCount := 0 }
    else if platformname = "CPU" then
      .ok { platform := "CPU", properties := none, contextPositions := none,
            reporters := [], reinitCount := 0 }
    else if platformname = "OpenCL" then
      .ok { platform := "OpenCL", properties := none, contextPositions := none,
            reporters := [], reinitCount := 0 }
    else if platformname = "CUDA" then
      .ok { platform := "CUDA", properties := some [("Precision", "mixed")],
            contextPositions := none, reporters := [], reinitCount := 0 }
    else .error .systemExit : Except PyError Simulation) with
  | .error err => .error err
  | .ok simmd => .ok { simmd with contextPositions := some st.positions }

/-- `MM_base.set_trajectory_output` (lines 149-154): reset the reporter
list, append the DCD reporter, and append a checkpoint reporter when
`checkpointfile` is truthy (`None` and the empty string are falsy). -/
def set_trajectory_output (sim : Simulation) (filename : String) (write_frequency : ℕ)
    (append_trajectory : Bool) (checkpointfile : Option String)
    (write_checkpoint_frequency : ℕ) : Simulation :=
  let sim := { sim with reporters := [] }
  let sim := { sim with
    reporters := sim.reporters ++ [.dcd filename write_frequency append_trajectory] }
  match checkpointfile with
  | some cf =>
    if cf ≠ "" then
      { sim with reporters := sim.reporters ++ [.checkpoint cf write_checkpoint_frequency] }
    else sim
  | none => sim

/-- The force kinds that receive `setUsesPeriodicBoundaryConditions(True)`
at lines 169-170. -/
def isBondedKind (k : ForceKind) : Bool :=
  k == .harmonicBond || k == .harmonicAngle || k == .periodicTorsion || k == .rbTorsion

/-- The update applied to the force at index `i` by one iteration of the
`set_periodic_residue` loop. -/
def updForce (flag : Bool) (i : ℕ) (f : Force) : Force :=
  { f with forceGroup := i
           usesPBC := if flag && isBondedKind f.kind then true else f.usesPBC }

/-- The `for i in range(self.system.getNumForces())` loop of
`set_periodic_residue`, carrying the current force index. -/
def setPerResGo (flag : Bool) (i : ℕ) : List Force → List Force
  | [] => []
  | f :: fs => updForce flag i f :: setPerResGo flag (i + 1) fs

/-- `MM_base.set_periodic_residue` (lines 161-171): give force `i` force
group `i`, and when `flag` is set, turn on periodic boundary conditions for
the four bonded force types.  (Line 171 calls the getter
`usesPeriodicBoundaryConditions()`, which has no effect.) -/
def set_periodic_residue (forces : List Force) (flag : Bool) : List Force :=
  setPerResGo flag 0 forces

/-- An exclusion-generation action applied by `generate_exclusions`.  The
bodies of `generate_SAPT_FF_exclusions` and `generate_exclusions_water` live
in `MM_exclusions_base`, outside this file; only the fact that they are
invoked (and with which water residue name) is observable here. -/
inductive ExclEvent where
  | saptFF
  | waterGroups (water_name : String)
  deriving DecidableEq, Repr

/-- `MM_base.generate_exclusions` (lines 203-223): apply the SAPT-FF
exclusions when `flag_SAPT_FF_exclusions`, apply the water interaction
groups when `flag_hybrid_water_model`, and — after both — `sys.exit()` when
both flags are set.  Otherwise save the context positions, reinitialize the
context (which clears them) and set the saved positions back.  The result
carries the trace of exclusion actions applied. -/
def generate_exclusions (sim : Simulation) (water_name : String)
    (flag_hybrid_water_model : Bool) (flag_SAPT_FF_exclusions : Bool) :
    Except PyError (Simulation × List ExclEvent) :=
  let events : List ExclEvent :=
    (if flag_SAPT_FF_exclusions then [.saptFF] else []) ++
    (if flag_hybrid_water_model then [.waterGroups water_name] else [])
  if flag_SAPT_FF_exclusions && flag_hybrid_water_model then .error .systemExit
  else
    let positions := sim.contextPositions
    let sim := { sim with contextPositions := none, reinitCount := sim.reinitCount + 1 }
    let sim := { sim with contextPositions := positions }
    .ok (sim, events)

/-! ### Specification-side formulations and auxiliary predicates -/

/-- Specification-side counterpart of `collectRigidAtomNames`, following the
claim's words: every atom name that any force-field template assigns to an
atom whose type is in `rb`. -/
def specRigidAtomNames (templates : List Template) (rb : List String) : List String :=
  (templates.map (fun t => (t.atoms.filter (fun a => a.type ∈ rb)).map (·.name))).flatten

/-- Specification-side counterpart of `buildBodies`, following the claim's
words: for every residue in order, the list of indices of its atoms whose
name is in `names`, keeping exactly the non-empty lists. -/
def specBodies (residues : List Residue) (names : List String) : List (List ℕ) :=
  (residues.map
    (fun res => (res.atoms.filter (fun a => a.name ∈ names)).map (·.index))).filter
    (fun body => body ≠ [])

/-- Whether an `Except` computation succeeded. -/
def exOk {α : Type} : Except PyError α → Bool
  | .ok _ => true
  | .error _ => false

/-- The effective `self.nonbonded_method` value: the kwargs entry when
present, the default `"PME"` otherwise. -/
def effMethod (kw : Kwargs) : PyValue :=
  (lookupKw kw "nonbonded_method").getD (.str "PME")

/-- Whether the configured nonbonded method is one the dispatch accepts. -/
def methodKwOk (kw : Kwargs) : Bool :=
  effMethod kw == .str "NoCutoff" || effMethod kw == .str "PME"

/-- Whether every kwargs conversion preceding the `npt_barostat` branch
(lines 39-52) succeeds. -/
def preNptOk (kw : Kwargs) : Bool :=
  exOk (kwQuantity kw "temperature" pyIntQ .kelvin ⟨300, .kelvin⟩) &&
  exOk (kwQuantity kw "temperature_drude" pyIntQ .kelvin ⟨1, .kelvin⟩) &&
  exOk (kwQuantity kw "friction" pyIntQ .perPicosecond ⟨1, .perPicosecond⟩) &&
  exOk (kwQuantity kw "friction_drude" pyIntQ .perPicosecond ⟨1, .perPicosecond⟩) &&
  exOk (kwQuantity kw "timestep" pyFloatQ .picoseconds ⟨Rat.divInt 1 1000, .picoseconds⟩) &&
  exOk (match lookupKw kw "small_threshold" with
        | none => .ok (Rat.divInt 1 1000000)
        | some v => pyFloatQ v : Except PyError ℚ) &&
  exOk (kwQuantity kw "cutoff" pyFloatQ .nanometer ⟨Rat.divInt 7 5, .nanometer⟩)

/-! ### Concrete fixtures used by witnesses -/

/-- A minimal engine outcome: a system holding one `NonbondedForce` and
nothing else. -/
def egEngine : EngineInputs :=
  { templates := [], residues := [], forces := [{ kind := .nonbonded }], positions := [] }

/-- An engine outcome with force-field templates and topology residues, for
exercising the rigid-body grouping.  The template maps type `"Au"` to atom
names `"AU1"` and `"AU2"`; the first residue holds atoms of those names at
indices 0 and 2, the second residue holds none. -/
def egEngineRigid : EngineInputs :=
  { templates := [⟨[⟨"AU1", "Au"⟩, ⟨"AU2", "Au"⟩, ⟨"OW", "OW_t"⟩]⟩]
    residues := [⟨[⟨"AU1", 0⟩, ⟨"HX", 1⟩, ⟨"AU2", 2⟩]⟩, ⟨[⟨"HX", 3⟩]⟩]
    forces := [{ kind := .nonbonded }]
    positions := [] }

/-- The `MM_base` state produced by `mm_base_init egEngine []` (all-default
run parameters). -/
def stEg : MMBase :=
  { temperature := ⟨300, .kelvin⟩
    temperature_drude := ⟨1, .kelvin⟩
    friction := ⟨1, .perPicosecond⟩
    friction_drude := ⟨1, .perPicosecond⟩
    timestep := ⟨Rat.divInt 1 1000, .picoseconds⟩
    small_threshold := Rat.divInt 1 1000000
    cutoff := ⟨Rat.divInt 7 5, .nanometer⟩
    nonbonded_method := .str "PME"
    npt_barostat := false
    pressure := none
    rigid_body := none
    forces := [{ kind := .nonbonded }]
    nbondedForceMethod := nbPME
    polarization := false
    integrator := .langevin ⟨300, .kelvin⟩ ⟨1, .perPicosecond⟩ ⟨Rat.divInt 1 1000, .picoseconds⟩
    rigidBodiesCreated := none
    positions := [] }

/-- The `MM_base` state produced by `mm_base_init egEngineRigid` with the
`rigid_body` keyword set to `["Au"]`. -/
def stEgRigid : MMBase :=
  { stEg with
    rigid_body := some (.list ["Au"])
    rigidBodiesCreated := some [[0, 2]] }

/-- An engine outcome whose system also holds a `CustomNonbondedForce`. -/
def egEngineCustom : EngineInputs :=
  { egEngine with forces := [{ kind := .nonbonded }, { kind := .customNonbonded }] }

/-- A simulation fixture for the method-level witnesses. -/
def simEg : Simulation :=
  { platform := "Reference", properties := none, contextPositions := some []
    reporters := [.dcd "old.dcd" 5 false], reinitCount := 0 }

/-! ### Inversion and refinement lemmas -/

theorem exOk_iff {α : Type} (x : Except PyError α) : exOk x = true ↔ ∃ a, x = .ok a := by
  cases x <;> simp [exOk]

theorem mm_base_init_ok_inv {e : EngineInputs} {kw : Kwargs} {st : MMBase}
    (h : mm_base_init e kw = .ok st) :
    ∃ p, processKwargs kw = .ok p ∧ initSystem e p = .ok st := by
  unfold mm_base_init at h
  split at h
  · exact Except.noConfusion h
  · exact ⟨_, by assumption, h⟩

theorem processKwargs_ok_inv {kw : Kwargs} {p : Params} (h : processKwargs kw = .ok p) :
    kwQuantity kw "temperature" pyIntQ .kelvin ⟨300, .kelvin⟩ = .ok p.temperature ∧
    kwQuantity kw "temperature_drude" pyIntQ .kelvin ⟨1, .kelvin⟩ = .ok p.temperature_drude ∧
    kwQuantity kw "friction" pyIntQ .perPicosecond ⟨1, .perPicosecond⟩ = .ok p.friction ∧
    kwQuantity kw "friction_drude" pyIntQ .perPicosecond ⟨1, .perPicosecond⟩ = .ok p.friction_drude ∧
    kwQuantity kw "timestep" pyFloatQ .picoseconds ⟨Rat.divInt 1 1000, .picoseconds⟩ = .ok p.timestep ∧
    (match lookupKw kw "small_threshold" with
     | none => .ok (Rat.divInt 1 1000000)
     | some v => pyFloatQ v : Except PyError ℚ) = .ok p.small_threshold ∧
    kwQuantity kw "cutoff" pyFloatQ .nanometer ⟨Rat.divInt 7 5, .nanometer⟩ = .ok p.cutoff ∧
    nptFromKwargs kw = .ok (p.npt_barostat, p.pressure) ∧
    p.nonbonded_method = effMethod kw ∧
    p.rigid_body = lookupKw kw "rigid_body" := by
  unfold processKwargs at h
  repeat' split at h
  all_goals try exact Except.noConfusion h
  injection h with h
  subst h
  simp_all [effMethod]

theorem initSystem_ok_inv {e : EngineInputs} {p : Params} {st : MMBase}
    (h : initSystem e p = .ok st) :
    (e.forces.find? (fun f => f.kind == .nonbonded)).isSome = true ∧
    e.forces.any (fun f => f.kind == .customNonbonded) = false ∧
    p.npt_barostat = false ∧
    dispatchMethod p.nonbonded_method = .ok st.nbondedForceMethod ∧
    rigidStage p.rigid_body e = .ok st.rigidBodiesCreated ∧
    st.temperature = p.temperature ∧ st.temperature_drude = p.temperature_drude ∧
    st.friction = p.friction ∧ st.friction_drude = p.friction_drude ∧
    st.timestep = p.timestep ∧ st.small_threshold = p.small_threshold ∧
    st.cutoff = p.cutoff ∧ st.nonbonded_method = p.nonbonded_method ∧
    st.npt_barostat = p.npt_barostat ∧ st.pressure = p.pressure ∧
    st.rigid_body = p.rigid_body ∧ st.forces = e.forces ∧ st.positions = e.positions ∧
    st.polarization = e.forces.any (fun f => f.kind == .drude) ∧
    st.integrator = (if e.forces.any (fun f => f.kind == .drude) then
        Integrator.drudeLangevin p.temperature p.friction p.temperature_drude
          p.friction_drude p.timestep (Rat.divInt 1 50)
      else Integrator.langevin p.temperature p.friction p.timestep) ∧
    (e.forces.any (fun f => f.kind == .drude) = true →
       e.forces.any (fun f => f.kind == .customBond) = true) := by
  unfold initSystem at h
  dsimp only at h
  repeat' split at h
  all_goals try exact Except.noConfusion h
  all_goals (injection h with h; subst h; simp_all)
  all_goals rw [if_neg (by simp_all)]

theorem processKwargs_npt_of_ok {kw : Kwargs} {p : Params} {v : PyValue}
    (h : processKwargs kw = .ok p) (hv : lookupKw kw "npt_barostat" = some v) :
    p.npt_barostat = pyTruthy v := by
  obtain ⟨-, -, -, -, -, -, -, hnpt, -, -⟩ := processKwargs_ok_inv h
  simp only [nptFromKwargs, hv] at hnpt
  split at hnpt
  · exact Except.noConfusion hnpt
  · split at hnpt
    · simp only [Except.ok.injEq, Prod.mk.injEq] at hnpt
      exact hnpt.1.symm
    · exact Except.noConfusion hnpt

theorem processKwargs_keyError {kw : Kwargs} {v : PyValue} (hpre : preNptOk kw = true)
    (hv : lookupKw kw "npt_barostat" = some v)
    (hp : lookupKw kw "pressure" = none) :
    processKwargs kw = .error (.keyError "pressure") := by
  unfold preNptOk at hpre
  simp only [Bool.and_eq_true, exOk_iff] at hpre
  obtain ⟨⟨⟨⟨⟨⟨⟨a1, h1⟩, a2, h2⟩, a3, h3⟩, a4, h4⟩, a5, h5⟩, a6, h6⟩, a7, h7⟩ := hpre
  simp only [processKwargs, h1, h2, h3, h4, h5, h6, h7, nptFromKwargs, hv, hp]

theorem kwQuantity_ok_num {kw : Kwargs} {key : String} {conv : PyValue → Except PyError ℚ}
    {u : EngUnit} {d y : Quantity} {q r : ℚ}
    (h : kwQuantity kw key conv u d = .ok y)
    (hl : lookupKw kw key = some (.num q)) (hc : conv (.num q) = .ok r) :
    y = ⟨r, u⟩ := by
  simp only [kwQuantity, hl, hc, Except.ok.injEq] at h
  exact h.symm

theorem dispatch_bond_false {e : EngineInputs}
    (hdr : e.forces.any (fun f => f.kind == .drude) = true →
           e.forces.any (fun f => f.kind == .customBond) = true) :
    ((e.forces.any fun f => f.kind == .drude) &&
      !(e.forces.any fun f => f.kind == .customBond)) = false := by
  cases hD : e.forces.any (fun f => f.kind == .drude) with
  | false => simp
  | true => simp [hdr hD]

theorem initSystem_attrError {e : EngineInputs} {p : Params}
    (hnb : (e.forces.find? (fun f => f.kind == .nonbonded)).isSome = true)
    (hdr : e.forces.any (fun f => f.kind == .drude) = true →
           e.forces.any (fun f => f.kind == .customBond) = true)
    (hm : exOk (dispatchMethod p.nonbonded_method) = true)
    (hcu : e.forces.any (fun f => f.kind == .customNonbonded) = false)
    (hnpt : p.npt_barostat = true) :
    initSystem e p = .error (.attributeError "NPT_barostat_pressure") := by
  obtain ⟨f, hf⟩ := Option.isSome_iff_exists.mp hnb
  obtain ⟨m, hm'⟩ := (exOk_iff _).mp hm
  simp [initSystem, hf, hm', dispatch_bond_false hdr, hcu, hnpt]

theorem initSystem_typeError {e : EngineInputs} {p : Params}
    (hnb : (e.forces.find? (fun f => f.kind == .nonbonded)).isSome = true)
    (hdr : e.forces.any (fun f => f.kind == .drude) = true →
           e.forces.any (fun f => f.kind == .customBond) = true)
    (hm : exOk (dispatchMethod p.nonbonded_method) = true)
    (hcu : e.forces.any (fun f => f.kind == .customNonbonded) = true) :
    initSystem e p = .error .typeError := by
  obtain ⟨f, hf⟩ := Option.isSome_iff_exists.mp hnb
  obtain ⟨m, hm'⟩ := (exOk_iff _).mp hm
  simp [initSystem, hf, hm', dispatch_bond_false hdr, hcu]

theorem initSystem_systemExit {e : EngineInputs} {p : Params}
    (hnb : (e.forces.find? (fun f => f.kind == .nonbonded)).isSome = true)
    (hdr : e.forces.any (fun f => f.kind == .drude) = true →
           e.forces.any (fun f => f.kind == .customBond) = true)
    (hm : dispatchMethod p.nonbonded_method = .error .systemExit) :
    initSystem e p = .error .systemExit := by
  obtain ⟨f, hf⟩ := Option.isSome_iff_exists.mp hnb
  simp [initSystem, hf, hm, dispatch_bond_false hdr]

theorem inner_names_foldl (rb : List String) (atoms : List TemplateAtom) (acc : List String) :
    atoms.foldl (fun acc2 a => if a.type ∈ rb then acc2 ++ [a.name] else acc2) acc =
      acc ++ (atoms.filter (fun a => a.type ∈ rb)).map (·.name) := by
  induction atoms generalizing acc with
  | nil => simp
  | cons a as ih =>
    by_cases hc : a.type ∈ rb <;>
      simp [List.filter_cons, hc, ih, List.append_assoc]

theorem collectRigidAtomNames_eq_spec (ts : List Template) (rb : List String) :
    collectRigidAtomNames ts rb = specRigidAtomNames ts rb := by
  suffices h : ∀ acc,
      ts.foldl (fun acc t =>
        t.atoms.foldl
          (fun acc2 a => if a.type ∈ rb then acc2 ++ [a.name] else acc2) acc) acc =
        acc ++ specRigidAtomNames ts rb by
    simpa [collectRigidAtomNames] using h []
  induction ts with
  | nil => intro acc; simp [specRigidAtomNames]
  | cons t ts ih =>
    intro acc
    rw [List.foldl_cons, ih]
    simp only [inner_names_foldl]
    simp [specRigidAtomNames, List.append_assoc]

theorem inner_body_foldl (names : List String) (atoms : List TopAtom) (acc : List ℕ) :
    atoms.foldl (fun b a => if a.name ∈ names then b ++ [a.index] else b) acc =
      acc ++ (atoms.filter (fun a => a.name ∈ names)).map (·.index) := by
  induction atoms generalizing acc with
  | nil => simp
  | cons a as ih =>
    by_cases hc : a.name ∈ names <;>
      simp [List.filter_cons, hc, ih, List.append_assoc]

theorem specBodies_cons (r : Residue) (rs : List Residue) (names : List String) :
    specBodies (r :: rs) names =
      (if (r.atoms.filter (fun a => a.name ∈ names)).map (·.index) ≠ [] then
        [(r.atoms.filter (fun a => a.name ∈ names)).map (·.index)] else []) ++
      specBodies rs names := by
  by_cases h : (r.atoms.filter (fun a => a.name ∈ names)).map (·.index) = [] <;>
    simp [specBodies, List.filter_cons, h]

theorem buildBodies_eq_spec (rs : List Residue) (names : List String) :
    buildBodies rs names = specBodies rs names := by
  suffices h : ∀ acc,
      rs.foldl (fun bodies res =>
        let body := res.atoms.foldl
          (fun b a => if a.name ∈ names then b ++ [a.index] else b) []
        if body ≠ [] then bodies ++ [body] else bodies) acc =
        acc ++ specBodies rs names by
    simpa [buildBodies] using h []
  induction rs with
  | nil => intro acc; simp [specBodies]
  | cons r rs ih =>
    intro acc
    rw [List.foldl_cons, ih, specBodies_cons]
    have hbody := inner_body_foldl names r.atoms []
    by_cases hb : (r.atoms.filter (fun a => a.name ∈ names)).map (·.index) = [] <;>
      simp [hbody, hb, List.append_assoc]

theorem setPerResGo_getElem (flag : Bool) (fs : List Force) (j i : ℕ) :
    (setPerResGo flag j fs)[i]? = (fs[i]?).map (updForce flag (j + i)) := by
  induction fs generalizing j i with
  | nil => simp [setPerResGo]
  | cons f fs ih =>
    cases i with
    | zero => simp [setPerResGo]
    | succ n =>
      have harith : j + 1 + n = j + (n + 1) := by omega
      simpa [setPerResGo, harith] using ih (j + 1) n

/-! ### The claims -/

/-- C1: when the `rigid_body` keyword is supplied to `MM_base.__init__` (a
list of atom types), the constructor collects every atom name that any
force-field template assigns to an atom whose type is in `rigid_body`, then
for every residue of the modeller topology in order forms the list of
indices of that residue's atoms whose name is among the collected names, and
passes exactly the non-empty per-residue index lists, in residue order, to
`createRigidBodies`. -/
theorem C1_rigid_body_grouping (e : EngineInputs) (kw : Kwargs) (st : MMBase)
    (rb : List String) (hrb : lookupKw kw "rigid_body" = some (.list rb))
    (h : mm_base_init e kw = .ok st) :
    st.rigidBodiesCreated =
      some (specBodies e.residues (specRigidAtomNames e.templates rb)) := by
  obtain ⟨p, hp, hi⟩ := mm_base_init_ok_inv h
  obtain ⟨-, -, -, -, hrs, -, -, -, -, -, -, -, -, -, -, -, -, -, -, -, -⟩ :=
    initSystem_ok_inv hi
  obtain ⟨-, -, -, -, -, -, -, -, -, hrb2⟩ := processKwargs_ok_inv hp
  rw [hrb] at hrb2
  rw [hrb2] at hrs
  simp only [rigidStage, Except.ok.injEq] at hrs
  rw [← hrs, buildBodies_eq_spec, collectRigidAtomNames_eq_spec]

/-- Witness for C1: a gold template mapping type `"Au"` to names `"AU1"`,
`"AU2"`, a first residue holding them at indices 0 and 2, and an empty-match
second residue dropped from the bodies. -/
theorem C1_witness :
    stEgRigid.rigidBodiesCreated =
      some (specBodies egEngineRigid.residues
        (specRigidAtomNames egEngineRigid.templates ["Au"])) :=
  C1_rigid_body_grouping egEngineRigid [("rigid_body", .list ["Au"])] stEgRigid ["Au"]
    (by decide) (by decide)

/-- C2: `MM_base.__init__` dispatches on the configured nonbonded-method
value: `'NoCutoff'` sets the `NonbondedForce` method to `NoCutoff`, `'PME'`
sets it to `PME`, and any other value terminates the process (never
completing construction; `sys.exit()` when the dispatch is reached). -/
theorem C2_nonbonded_method_dispatch (e : EngineInputs) (kw : Kwargs) :
    (effMethod kw = .str "NoCutoff" →
       ∀ st, mm_base_init e kw = .ok st → st.nbondedForceMethod = nbNoCutoff) ∧
    (effMethod kw = .str "PME" →
       ∀ st, mm_base_init e kw = .ok st → st.nbondedForceMethod = nbPME) ∧
    (effMethod kw ≠ .str "NoCutoff" → effMethod kw ≠ .str "PME" →
       (∀ st, mm_base_init e kw ≠ .ok st) ∧
       (exOk (processKwargs kw) = true →
        (e.forces.find? (fun f => f.kind == .nonbonded)).isSome = true →
        (e.forces.any (fun f => f.kind == .drude) = true →
           e.forces.any (fun f => f.kind == .customBond) = true) →
        mm_base_init e kw = .error .systemExit)) := by
  refine ⟨?_, ?_, ?_⟩
  · intro hm st h
    obtain ⟨p, hp, hi⟩ := mm_base_init_ok_inv h
    have hd := (initSystem_ok_inv hi).2.2.2.1
    have hnm := (processKwargs_ok_inv hp).2.2.2.2.2.2.2.2.1
    rw [hnm, hm] at hd
    have hdm : dispatchMethod (.str "NoCutoff") = .ok nbNoCutoff := rfl
    rw [hdm] at hd
    injection hd with hd
    exact hd.symm
  · intro hm st h
    obtain ⟨p, hp, hi⟩ := mm_base_init_ok_inv h
    have hd := (initSystem_ok_inv hi).2.2.2.1
    have hnm := (processKwargs_ok_inv hp).2.2.2.2.2.2.2.2.1
    rw [hnm, hm] at hd
    have hdm : dispatchMethod (.str "PME") = .ok nbPME := rfl
    rw [hdm] at hd
    injection hd with hd
    exact hd.symm
  · intro h1 h2
    constructor
    · intro st h
      obtain ⟨p, hp, hi⟩ := mm_base_init_ok_inv h
      have hd := (initSystem_ok_inv hi).2.2.2.1
      have hnm := (processKwargs_ok_inv hp).2.2.2.2.2.2.2.2.1
      rw [hnm] at hd
      simp [dispatchMethod, h1, h2] at hd
    · intro hok hnb hdr
      obtain ⟨p, hp⟩ := (exOk_iff _).mp hok
      have hnm := (processKwargs_ok_inv hp).2.2.2.2.2.2.2.2.1
      simp only [mm_base_init, hp]
      exact initSystem_systemExit hnb hdr (by simp [dispatchMethod, hnm, h1, h2])

/-- Witness for C2 at the unrecognized method string `"LJPME"`. -/
theorem C2_witness :
    mm_base_init egEngine [("nonbonded_method", .str "LJPME")] = .error .systemExit :=
  ((C2_nonbonded_method_dispatch egEngine [("nonbonded_method", .str "LJPME")]).2.2
    (by decide) (by decide)).2 (by decide) (by decide) (by decide)

/-- C3: `MM_base.set_platform` terminates the process for every platform
name other than `'Reference'`, `'CPU'`, `'OpenCL'` and `'CUDA'`; for each of
those four it builds the `Simulation` on the named platform and sets the
context positions from the modeller positions. -/
theorem C3_platform_dispatch (st : MMBase) (name : String) :
    (name ≠ "Reference" → name ≠ "CPU" → name ≠ "OpenCL" → name ≠ "CUDA" →
       set_platform st name = .error .systemExit) ∧
    (name = "Reference" ∨ name = "CPU" ∨ name = "OpenCL" ∨ name = "CUDA" →
       ∃ sim, set_platform st name = .ok sim ∧ sim.platform = name ∧
         sim.contextPositions = some st.positions) := by
  constructor
  · intro h1 h2 h3 h4
    simp [set_platform, h1, h2, h3, h4]
  · rintro (rfl | rfl | rfl | rfl)
    · exact ⟨{ platform := "Reference", properties := none,
               contextPositions := some st.positions, reporters := [], reinitCount := 0 },
             rfl, rfl, rfl⟩
    · exact ⟨{ platform := "CPU", properties := none,
               contextPositions := some st.positions, reporters := [], reinitCount := 0 },
             rfl, rfl, rfl⟩
    · exact ⟨{ platform := "OpenCL", properties := none,
               contextPositions := some st.positions, reporters := [], reinitCount := 0 },
             rfl, rfl, rfl⟩
    · exact ⟨{ platform := "CUDA", properties := some [("Precision", "mixed")],
               contextPositions := some st.positions, reporters := [], reinitCount := 0 },
             rfl, rfl, rfl⟩

/-- Witness for C3: an unrecognized name exits; `'CUDA'` builds the
simulation with the positions set. -/
theorem C3_witness :
    set_platform stEg "Banana" = .error .systemExit ∧
    (∃ sim, set_platform stEg "CUDA" = .ok sim ∧ sim.platform = "CUDA" ∧
       sim.contextPositions = some stEg.positions) :=
  ⟨(C3_platform_dispatch stEg "Banana").1 (by decide) (by decide) (by decide) (by decide),
   (C3_platform_dispatch stEg "CUDA").2 (by simp)⟩

/-- C4 counterexample: the claim says each supplied run-parameter keyword is
copied exactly (with its unit); but supplying `temperature = 300.5` stores
`int(300.5)*kelvin = 300*kelvin`, not `300.5*kelvin`. -/
theorem C4_counterexample :
    (mm_base_init egEngine [("temperature", .num (Rat.divInt 601 2))]).map (·.temperature) =
      .ok ⟨300, .kelvin⟩ ∧ (⟨300, .kelvin⟩ : Quantity) ≠ ⟨Rat.divInt 601 2, .kelvin⟩ := by
  constructor
  · decide
  · decide

/-- C4 as amended: each supplied numeric run parameter is stored with the
appropriate unit after the code's declared conversion — `int()` truncation
toward zero for `temperature`, `temperature_drude`, `friction` and
`friction_drude`; exact (`float()`) for `timestep`, `small_threshold` and
`cutoff`. -/
theorem C4_amended_kwarg_copy (e : EngineInputs) (kw : Kwargs) (st : MMBase)
    (h : mm_base_init e kw = .ok st) :
    (∀ q, lookupKw kw "temperature" = some (.num q) →
       st.temperature = ⟨((pyTruncInt q : ℤ) : ℚ), .kelvin⟩) ∧
    (∀ q, lookupKw kw "temperature_drude" = some (.num q) →
       st.temperature_drude = ⟨((pyTruncInt q : ℤ) : ℚ), .kelvin⟩) ∧
    (∀ q, lookupKw kw "friction" = some (.num q) →
       st.friction = ⟨((pyTruncInt q : ℤ) : ℚ), .perPicosecond⟩) ∧
    (∀ q, lookupKw kw "friction_drude" = some (.num q) →
       st.friction_drude = ⟨((pyTruncInt q : ℤ) : ℚ), .perPicosecond⟩) ∧
    (∀ q, lookupKw kw "timestep" = some (.num q) → st.timestep = ⟨q, .picoseconds⟩) ∧
    (∀ q, lookupKw kw "small_threshold" = some (.num q) → st.small_threshold = q) ∧
    (∀ q, lookupKw kw "cutoff" = some (.num q) → st.cutoff = ⟨q, .nanometer⟩) := by
  obtain ⟨p, hp, hi⟩ := mm_base_init_ok_inv h
  obtain ⟨h1, h2, h3, h4, h5, h6, h7, -, -, -⟩ := processKwargs_ok_inv hp
  obtain ⟨-, -, -, -, -, e1, e2, e3, e4, e5, e6, e7, -, -, -, -, -, -, -, -, -⟩ :=
    initSystem_ok_inv hi
  refine ⟨?_, ?_, ?_, ?_, ?_, ?_, ?_⟩ <;> intro q hq
  · rw [e1]; exact kwQuantity_ok_num h1 hq rfl
  · rw [e2]; exact kwQuantity_ok_num h2 hq rfl
  · rw [e3]; exact kwQuantity_ok_num h3 hq rfl
  · rw [e4]; exact kwQuantity_ok_num h4 hq rfl
  · rw [e5]; exact kwQuantity_ok_num h5 hq rfl
  · rw [e6]
    simp only [hq, pyFloatQ, Except.ok.injEq] at h6
    exact h6.symm
  · rw [e7]; exact kwQuantity_ok_num h7 hq rfl

/-- Witness for C4 as amended: the supplied `300.5` kelvin is stored
truncated. -/
theorem C4_amended_witness :
    stEg.temperature = ⟨((pyTruncInt (Rat.divInt 601 2) : ℤ) : ℚ), .kelvin⟩ :=
  (C4_amended_kwarg_copy egEngine [("temperature", .num (Rat.divInt 601 2))] stEg (by decide)).1
    (Rat.divInt 601 2) (by decide)

/-- C5: construction sets `self.polarization` exactly when the created
system holds a `DrudeForce`; a polarizable system gets a
`DrudeLangevinIntegrator` over (temperature, friction, temperature_drude,
friction_drude, timestep) with maximum Drude distance `0.02`, a
non-polarizable one a `LangevinIntegrator` over (temperature, friction,
timestep). -/
theorem C5_polarization_integrator (e : EngineInputs) (kw : Kwargs) (st : MMBase)
    (h : mm_base_init e kw = .ok st) :
    (st.polarization = true ↔ e.forces.any (fun f => f.kind == .drude) = true) ∧
    (st.polarization = true →
       st.integrator = .drudeLangevin st.temperature st.friction st.temperature_drude
         st.friction_drude st.timestep (Rat.divInt 1 50)) ∧
    (st.polarization = false →
       st.integrator = .langevin st.temperature st.friction st.timestep) := by
  obtain ⟨p, hp, hi⟩ := mm_base_init_ok_inv h
  obtain ⟨-, -, -, -, -, e1, e2, e3, e4, e5, -, -, -, -, -, -, -, -, hpol, hint, -⟩ :=
    initSystem_ok_inv hi
  refine ⟨by rw [hpol], ?_, ?_⟩
  · intro hp1
    rw [hint, if_pos (hpol.symm.trans hp1), e1, e2, e3, e4, e5]
  · intro hp0
    rw [hint, if_neg (by simp [hpol.symm.trans hp0]), e1, e3, e5]

/-- Witness for C5 at the default (non-polarizable) construction. -/
theorem C5_witness :
    (stEg.polarization = true ↔ egEngine.forces.any (fun f => f.kind == .drude) = true) ∧
    (stEg.polarization = true →
       stEg.integrator = .drudeLangevin stEg.temperature stEg.friction
         stEg.temperature_drude stEg.friction_drude stEg.timestep (Rat.divInt 1 50)) ∧
    (stEg.polarization = false →
       stEg.integrator = .langevin stEg.temperature stEg.friction stEg.timestep) :=
  C5_polarization_integrator egEngine [] stEg (by decide)

/-- C6: after `set_trajectory_output` the reporter list is exactly one DCD
reporter built from the arguments, followed by one checkpoint reporter
exactly when `checkpointfile` is truthy; reporters present before the call
are discarded (the result does not depend on them). -/
theorem C6_trajectory_reporters (sim : Simulation) (fn : String) (wf : ℕ) (app : Bool)
    (cpf : Option String) (wcf : ℕ) :
    (set_trajectory_output sim fn wf app cpf wcf).reporters =
      [Reporter.dcd fn wf app] ++
      (match cpf with
       | some cf => if cf ≠ "" then [Reporter.checkpoint cf wcf] else []
       | none => []) := by
  cases cpf with
  | none => simp [set_trajectory_output]
  | some cf => by_cases hc : cf = "" <;> simp [set_trajectory_output, hc]

/-- C7: `generate_exclusions` terminates the process when both flags are
set; with at most one flag set it applies the SAPT-FF exclusions exactly
when `flag_SAPT_FF_exclusions` holds and the water interaction groups
exactly when `flag_hybrid_water_model` holds, then reinitializes the context
and restores the saved positions. -/
theorem C7_generate_exclusions (sim : Simulation) (wname : String)
    (f_hybrid f_sapt : Bool) :
    (f_sapt = true → f_hybrid = true →
       generate_exclusions sim wname f_hybrid f_sapt = .error .systemExit) ∧
    (¬(f_sapt = true ∧ f_hybrid = true) →
       ∃ sim' ev, generate_exclusions sim wname f_hybrid f_sapt = .ok (sim', ev) ∧
         (ExclEvent.saptFF ∈ ev ↔ f_sapt = true) ∧
         (ExclEvent.waterGroups wname ∈ ev ↔ f_hybrid = true) ∧
         sim'.reinitCount = sim.reinitCount + 1 ∧
         sim'.contextPositions = sim.contextPositions) := by
  cases f_sapt <;> cases f_hybrid <;> refine ⟨?_, ?_⟩
  · intro h _; exact Bool.noConfusion h
  · intro _; exact ⟨_, _, rfl, by simp, by simp, rfl, rfl⟩
  · intro h _; exact Bool.noConfusion h
  · intro _; exact ⟨_, _, rfl, by simp, by simp, rfl, rfl⟩
  · intro _ h; exact Bool.noConfusion h
  · intro _; exact ⟨_, _, rfl, by simp, by simp, rfl, rfl⟩
  · intro _ _; rfl
  · intro h; exact absurd ⟨rfl, rfl⟩ h

/-- Witness for C7 with only the SAPT-FF flag set. -/
theorem C7_witness :
    ∃ sim' ev, generate_exclusions simEg "HOH" false true = .ok (sim', ev) ∧
      (ExclEvent.saptFF ∈ ev ↔ true = true) ∧
      (ExclEvent.waterGroups "HOH" ∈ ev ↔ false = true) ∧
      sim'.reinitCount = simEg.reinitCount + 1 ∧
      sim'.contextPositions = simEg.contextPositions :=
  (C7_generate_exclusions simEg "HOH" false true).2 (by simp)

/-- C8: whenever kwargs carry a truthy `npt_barostat`, `__init__` raises
before completing: a `KeyError` when `pressure` is absent (given the
preceding conversions succeed), an `AttributeError` from the never-assigned
`self.NPT_barostat_pressure` in the barostat status print when the run
reaches the barostat branch, and in every case no constructed instance
exists. -/
theorem C8_npt_barostat_always_raises (e : EngineInputs) (kw : Kwargs) (v : PyValue)
    (hv : lookupKw kw "npt_barostat" = some v) (ht : pyTruthy v = true) :
    (preNptOk kw = true → lookupKw kw "pressure" = none →
       mm_base_init e kw = .error (.keyError "pressure")) ∧
    (exOk (processKwargs kw) = true →
     (e.forces.find? (fun f => f.kind == .nonbonded)).isSome = true →
     (e.forces.any (fun f => f.kind == .drude) = true →
        e.forces.any (fun f => f.kind == .customBond) = true) →
     methodKwOk kw = true →
     e.forces.any (fun f => f.kind == .customNonbonded) = false →
     mm_base_init e kw = .error (.attributeError "NPT_barostat_pressure")) ∧
    (∀ st, mm_base_init e kw ≠ .ok st) := by
  refine ⟨?_, ?_, ?_⟩
  · intro hpre hp
    simp only [mm_base_init, processKwargs_keyError hpre hv hp]
  · intro hok hnb hdr hmk hcu
    obtain ⟨p, hp⟩ := (exOk_iff _).mp hok
    have hnm := (processKwargs_ok_inv hp).2.2.2.2.2.2.2.2.1
    have hnpt : p.npt_barostat = true := (processKwargs_npt_of_ok hp hv).trans ht
    have hm : exOk (dispatchMethod p.nonbonded_method) = true := by
      simp only [methodKwOk, Bool.or_eq_true, beq_iff_eq] at hmk
      rcases hmk with hc | hc <;> simp [dispatchMethod, hnm, hc, exOk]
    simp only [mm_base_init, hp]
    exact initSystem_attrError hnb hdr hm hcu hnpt
  · intro st h
    obtain ⟨p, hp, hi⟩ := mm_base_init_ok_inv h
    have hnpt : p.npt_barostat = true := (processKwargs_npt_of_ok hp hv).trans ht
    have hfalse := (initSystem_ok_inv hi).2.2.1
    rw [hnpt] at hfalse
    exact Bool.noConfusion hfalse

/-- Witness for C8: truthy barostat with a pressure reaches the
`AttributeError`. -/
theorem C8_witness :
    mm_base_init egEngine [("npt_barostat", .bool true), ("pressure", .num 1)] =
      .error (.attributeError "NPT_barostat_pressure") :=
  (C8_npt_barostat_always_raises egEngine
      [("npt_barostat", .bool true), ("pressure", .num 1)] (.bool true)
      (by decide) (by decide)).2.1
    (by decide) (by decide) (by decide) (by decide) (by decide)

/-- C9: a system holding a `CustomNonbondedForce` makes `__init__` raise —
a `TypeError` at the `self.customNonbondedForce[0]` subscript once the
dispatch stage is reached, since lines 81-83 replaced the list by the force
object — so construction completes only without a `CustomNonbondedForce`. -/
theorem C9_custom_nonbonded_breaks_init (e : EngineInputs) (kw : Kwargs)
    (hc : e.forces.any (fun f => f.kind == .customNonbonded) = true) :
    (∀ st, mm_base_init e kw ≠ .ok st) ∧
    (exOk (processKwargs kw) = true →
     (e.forces.find? (fun f => f.kind == .nonbonded)).isSome = true →
     (e.forces.any (fun f => f.kind == .drude) = true →
        e.forces.any (fun f => f.kind == .customBond) = true) →
     methodKwOk kw = true →
     mm_base_init e kw = .error .typeError) := by
  constructor
  · intro st h
    obtain ⟨p, hp, hi⟩ := mm_base_init_ok_inv h
    have hfalse := (initSystem_ok_inv hi).2.1
    rw [hc] at hfalse
    exact Bool.noConfusion hfalse
  · intro hok hnb hdr hmk
    obtain ⟨p, hp⟩ := (exOk_iff _).mp hok
    have hnm := (processKwargs_ok_inv hp).2.2.2.2.2.2.2.2.1
    have hm : exOk (dispatchMethod p.nonbonded_method) = true := by
      simp only [methodKwOk, Bool.or_eq_true, beq_iff_eq] at hmk
      rcases hmk with hcm | hcm <;> simp [dispatchMethod, hnm, hcm, exOk]
    simp only [mm_base_init, hp]
    exact initSystem_typeError hnb hdr hm hc

/-- Witness for C9 at a two-force system. -/
theorem C9_witness :
    mm_base_init egEngineCustom [] = .error .typeError :=
  (C9_custom_nonbonded_breaks_init egEngineCustom [] (by decide)).2
    (by decide) (by decide) (by decide) (by decide)

/-- C10: after `set_periodic_residue`, the force at index `i` carries force
group `i` regardless of the flag, and with the flag set every force of one
of the four bonded kinds has its periodic-boundary setting on. -/
theorem C10_force_groups (forces : List Force) (flag : Bool) (i : ℕ) (f : Force)
    (h : (set_periodic_residue forces flag)[i]? = some f) :
    f.forceGroup = i ∧
    (flag = true → isBondedKind f.kind = true → f.usesPBC = true) := by
  rw [set_periodic_residue, setPerResGo_getElem] at h
  cases hf : forces[i]? with
  | none => rw [hf] at h; exact Option.noConfusion h
  | some f0 =>
    rw [hf] at h
    simp only [Option.map_some'] at h
    injection h with h
    subst h
    constructor
    · simp [updForce]
    · intro hflag hbond
      simp only [updForce] at hbond ⊢
      simp [hflag, hbond]

/-- Witness for C10 at a two-force system with the flag set. -/
theorem C10_witness :
    (⟨.harmonicBond, 1, true⟩ : Force).forceGroup = 1 ∧
    (true = true → isBondedKind (⟨.harmonicBond, 1, true⟩ : Force).kind = true →
       (⟨.harmonicBond, 1, true⟩ : Force).usesPBC = true) :=
  C10_force_groups [⟨.nonbonded, 0, false⟩, ⟨.harmonicBond, 0, false⟩] true 1
    ⟨.harmonicBond, 1, true⟩ (by decide)

end MMBaseModel
